import Mathlib

/-!
Verification of the trade-test swap script (Boop.fun / Heaven protocol
adaptation layer).

The TypeScript source is shallowly embedded here:
* JS `number` arithmetic is modelled over `ℚ` (exact rationals);
  `bigint` fields are modelled as `ℕ`.
* `DataView` byte reads are modelled over `List ℕ` with explicit bounds
  checks; an out-of-bounds read (a thrown `RangeError` in JS, caught and
  converted to `null` by the decoders) is `Option.none`.
* Fallible functions return `Option` / `Except`.
* The asynchronous ledger I/O (account fetch, simulation) is externalised:
  the pure cores of `getHeavenPrice`, `getBoopFunPrice` and `estimateFees`
  take the fetched / decoded data as arguments.
-/

namespace TradeTest

/-- `LAMPORTS_PER_SOL` from `@solana/web3.js`. -/
def LAMPORTS_PER_SOL : ℕ := 1000000000

/-- Modelled from the spec: the `markets` constant table lives in
`src/helpers/constants.ts`, which is not among the provided sources.  The
README, the test commands and `scripts/trade.js` (error text
"market must be BOOP_FUN or HEAVEN", invocations `--market BOOP_FUN`,
`market: 'HEAVEN'`) fix the two string values. -/
def markets.BOOP_FUN : String := "BOOP_FUN"

/-- Modelled from the spec: see `markets.BOOP_FUN`. -/
def markets.HEAVEN : String := "HEAVEN"

/-- Modelled from the spec: the `swapDirection` constant table also lives in
`src/helpers/constants.ts`.  `estimateFees` documents
`direction: 'buy' | 'sell'` and the README runs `--direction buy` /
`--direction sell`. -/
def swapDirection.BUY : String := "buy"

/-- Modelled from the spec: see `swapDirection.BUY`. -/
def swapDirection.SELL : String := "sell"

/-! ## Byte-level reads (`DataView` model, helpers/price.ts) -/

/-- `DataView.getUint8`: one byte, `none` when out of bounds. -/
def getUint8 (data : List ℕ) (o : ℕ) : Option ℕ :=
  if o + 1 ≤ data.length then some (data.getD o 0) else none

/-- `DataView.getUint16(o, true)`: little-endian u16, `none` when out of
bounds. -/
def getUint16LE (data : List ℕ) (o : ℕ) : Option ℕ :=
  if o + 2 ≤ data.length then
    some (data.getD o 0 + data.getD (o + 1) 0 * 256)
  else none

/-- `DataView.getUint32(o, true)`: little-endian u32, `none` when out of
bounds. -/
def getUint32LE (data : List ℕ) (o : ℕ) : Option ℕ :=
  if o + 4 ≤ data.length then
    some (data.getD o 0 + data.getD (o + 1) 0 * 256 +
      data.getD (o + 2) 0 * 65536 + data.getD (o + 3) 0 * 16777216)
  else none

/-- `readU64LE` (helpers/price.ts): two little-endian u32 reads combined as
`(hi << 32) + lo`. -/
def readU64LE (data : List ℕ) (o : ℕ) : Option ℕ :=
  (getUint32LE data o).bind fun lo =>
    (getUint32LE data (o + 4)).map fun hi => hi * 4294967296 + lo

/-! ## Account decoders -/

/-- Decoded Heaven `LiquidityPoolReserve` fields (all `bigint` u64 in the
source). -/
structure HeavenReserve where
  tokenA : ℕ
  tokenB : ℕ
  initialA : ℕ
  initialB : ℕ
deriving DecidableEq, Repr

/-- `decodeHeavenReserve` (helpers/price.ts): skips the 8-byte Anchor
discriminator, the 88-byte `LiquidityPoolInfo` and the 360-byte
`LiquidityPoolMarketCapBasedFees` blocks, then reads u64 fields at relative
offsets 0, 8, 48, 56.  Any out-of-bounds read yields `none` (the source
catches the exception and returns `null`). -/
def decodeHeavenReserve (data : List ℕ) : Option HeavenReserve :=
  (readU64LE data (8 + 88 + 360 + 0)).bind fun tokenA =>
    (readU64LE data (8 + 88 + 360 + 8)).bind fun tokenB =>
      (readU64LE data (8 + 88 + 360 + 48)).bind fun initialA =>
        (readU64LE data (8 + 88 + 360 + 56)).map fun initialB =>
          { tokenA := tokenA, tokenB := tokenB,
            initialA := initialA, initialB := initialB }

/-- Decoded Boop.fun bonding-curve fields. -/
structure BoopBondingCurve where
  dampingTerm : ℕ
  virtualTokenReserves : ℕ
  virtualSolReserves : ℕ
  solReserves : ℕ
  tokenReserves : ℕ
  swapFeeBasisPoints : ℕ
  graduationTarget : ℕ
deriving DecidableEq, Repr

/-- `decodeBoopBondingCurve` (helpers/price.ts): skips the 8-byte
discriminator and two 32-byte identity fields (offset 72), then reads
`virtualSolReserves` (u64 at 72), `virtualTokenReserves` (80),
`graduationTarget` (88), skips `graduationFee` (96), `solReserves` (104),
`tokenReserves` (112), `dampingTerm` (u8 at 120), `swapFeeBasisPoints`
(u16 LE at 121).  Any out-of-bounds read yields `none`. -/
def decodeBoopBondingCurve (data : List ℕ) : Option BoopBondingCurve :=
  (readU64LE data 72).bind fun virtualSolReserves =>
    (readU64LE data 80).bind fun virtualTokenReserves =>
      (readU64LE data 88).bind fun graduationTarget =>
        (readU64LE data 104).bind fun solReserves =>
          (readU64LE data 112).bind fun tokenReserves =>
            (getUint8 data 120).bind fun dampingTerm =>
              (getUint16LE data 121).map fun swapFeeBasisPoints =>
                { dampingTerm := dampingTerm,
                  virtualTokenReserves := virtualTokenReserves,
                  virtualSolReserves := virtualSolReserves,
                  solReserves := solReserves,
                  tokenReserves := tokenReserves,
                  swapFeeBasisPoints := swapFeeBasisPoints,
                  graduationTarget := graduationTarget }

/-! ## Rounding helpers and price oracles -/

/-- `roundLamports` (helpers/price.ts): floor, plus 1 only when the
fractional remainder is strictly greater than 0.5. -/
def roundLamports (v : ℚ) : ℤ :=
  let f := ⌊v⌋
  let frac := v - f
  if frac > 1/2 then f + 1 else f

/-- `roundPercent` (helpers/price.ts): `Math.round(v * 100) / 100`;
`Math.round x = ⌊x + 1/2⌋` (ties toward positive infinity). -/
def roundPercent (v : ℚ) : ℚ := (⌊v * 100 + 1/2⌋ : ℚ) / 100

/-- A price-oracle result: `lamportsPerToken` and `bondingCurvePercent`
(`number | null` in the source). -/
structure PriceResult where
  lamportsPerToken : ℤ
  bondingCurvePercent : Option ℚ
deriving DecidableEq, Repr

/-- Pure core of `getHeavenPrice` (helpers/price.ts), after the pool account
has been fetched and decoded and the mint decimals read. -/
def getHeavenPrice (reserve : HeavenReserve) (decimals : ℕ) : PriceResult :=
  let tokenA : ℚ := reserve.tokenA
  let tokenB : ℚ := reserve.tokenB
  let lamportsPerToken : ℤ :=
    if tokenA > 0 then roundLamports (tokenB * 10 ^ decimals / tokenA) else 0
  let initialA : ℚ := reserve.initialA
  let bondingCurvePercent : ℚ :=
    if initialA > 0 then
      roundPercent (max 0 (min 1 (max 0 (initialA - tokenA) / initialA)) * 100)
    else 0
  { lamportsPerToken := lamportsPerToken,
    bondingCurvePercent := some bondingCurvePercent }

/-- Pure core of `getBoopFunPrice` (helpers/price.ts), after the bonding
curve account has been fetched and decoded and the mint decimals read. -/
def getBoopFunPrice (parsed : BoopBondingCurve) (decimals : ℕ) : PriceResult :=
  let xLamports : ℚ := (parsed.virtualSolReserves : ℚ) + parsed.solReserves
  let yBaseUnits : ℚ := parsed.tokenReserves
  let priceSol : ℚ :=
    if yBaseUnits > 0 then
      (xLamports / LAMPORTS_PER_SOL) / (yBaseUnits / 10 ^ decimals)
    else 0
  let lamportsPerToken := roundLamports (max 0 (priceSol * LAMPORTS_PER_SOL))
  let bondingCurvePercent : Option ℚ :=
    if parsed.graduationTarget > 0 then
      some (roundPercent
        (max 0 (min 1 ((parsed.solReserves : ℚ) / parsed.graduationTarget)) * 100))
    else none
  { lamportsPerToken := lamportsPerToken,
    bondingCurvePercent := bondingCurvePercent }

/-- Market dispatch choice (which client / oracle a market string selects). -/
inductive MarketChoice where
  | boopFun
  | heaven
deriving DecidableEq, Repr

/-- JS `String.prototype.toUpperCase` restricted to ASCII letters (the only
characters occurring in market names). -/
def toUpperCase (s : String) : String :=
  String.mk (s.data.map fun c =>
    if 97 ≤ c.toNat ∧ c.toNat ≤ 122 then Char.ofNat (c.toNat - 32) else c)

/-- Dispatch part of `getPriceForMarket` (helpers/price.ts): uppercases the
market string, then compares against the market constants; an unmatched
string throws. -/
def getPriceForMarket (market : String) : Option MarketChoice :=
  let key := toUpperCase market
  if key = markets.BOOP_FUN then some MarketChoice.boopFun
  else if key = markets.HEAVEN then some MarketChoice.heaven
  else none

/-! ## Transaction builder (src/builder.ts) -/

/-- An instruction in the built transaction: the two compute-budget
instructions the builder itself creates, and opaque instructions coming from
the market client or the caller. -/
inductive Instruction where
  | computeUnitLimit (units : ℕ)
  | computeUnitPrice (microLamports : ℤ)
  | other (tag : ℕ)
deriving DecidableEq, Repr

/-- A built (unsigned, blockhash-free) transaction: ordered instruction list
plus a fee payer (wallet public keys are abstracted as `ℕ`). -/
structure Transaction where
  instructions : List Instruction
  feePayer : Option ℕ
deriving DecidableEq, Repr

/-- `createMarketClient` (src/builder.ts): a case-sensitive switch on the
market string; the default branch throws `Unsupported market`. -/
def createMarketClient (market : String) : Option MarketChoice :=
  if market = markets.BOOP_FUN then some MarketChoice.boopFun
  else if market = markets.HEAVEN then some MarketChoice.heaven
  else none

/-- `createDirectionInvoker` (src/builder.ts): dispatch on the direction
string; an unmatched string throws `Unsupported direction`. -/
inductive Direction where
  | buy
  | sell
deriving DecidableEq, Repr

/-- Dispatch part of `createDirectionInvoker`. -/
def createDirectionInvoker (direction : String) : Option Direction :=
  if direction = swapDirection.BUY then some Direction.buy
  else if direction = swapDirection.SELL then some Direction.sell
  else none

/-- `buildTransaction` (src/builder.ts).  The market client's instruction
sequence is an external, awaited collaborator; it is passed in as
`marketInstructions`.  Rejects slippage outside [0,1]; adds the
compute-unit-limit and compute-unit-price instructions only when
`priorityFeeSol > 0`; then the market instructions, then the caller's
additional instructions; sets the fee payer to the wallet key. -/
def buildTransaction (market direction : String) (wallet : ℕ)
    (slippage : ℚ) (priorityFeeSol : ℚ)
    (marketInstructions additionalInstructions : List Instruction) :
    Except String Transaction :=
  if slippage < 0 ∨ slippage > 1 then
    Except.error "slippage must be between 0 and 1"
  else
    let computeUnits : ℕ := 300000
    let budget : List Instruction :=
      if priorityFeeSol > 0 then
        [Instruction.computeUnitLimit computeUnits,
         Instruction.computeUnitPrice
           (max 1 ⌊priorityFeeSol * (LAMPORTS_PER_SOL : ℚ) / computeUnits⌋)]
      else []
    match createMarketClient market with
    | none => Except.error ("Unsupported market: " ++ market)
    | some _ =>
      match createDirectionInvoker direction with
      | none => Except.error ("Unsupported direction: " ++ direction)
      | some _ =>
        Except.ok
          { instructions := budget ++ marketInstructions ++ additionalInstructions,
            feePayer := some wallet }

/-! ## Trader (src/trader.ts) -/

/-- `TradeTest.normalizeSlippage` (src/trader.ts): non-finite input throws
(not representable over `ℚ`, whose values are all finite); a finite
percentage is clamped to [0,100] and divided by 100. -/
def normalizeSlippage (slippagePercent : ℚ) : ℚ :=
  max 0 (min 100 slippagePercent) / 100

/-- The fee estimate returned by `TradeTest.estimateFees`. -/
structure FeeEstimate where
  baseFeeLamports : ℕ
  priorityFeeLamports : ℤ
  totalLamports : ℤ
  unitsConsumed : Option ℕ
  microLamportsPerCU : ℤ
deriving DecidableEq, Repr

/-- Pure core of `TradeTest.estimateFees` (src/trader.ts), after the base
fee has been queried and the transaction simulated.  `unitsConsumed` is the
simulation's optional unit count; in the source the guard
`unitsConsumed && microLamportsPerCU > 0` treats both an absent and a zero
unit count as falsy. -/
def estimateFees (priorityFeeSol : ℚ) (baseFeeLamports : ℕ)
    (unitsConsumed : Option ℕ) : FeeEstimate :=
  let computeUnits : ℕ := 300000
  let microLamportsPerCU : ℤ :=
    if priorityFeeSol > 0 then
      max 1 ⌊priorityFeeSol * (LAMPORTS_PER_SOL : ℚ) / computeUnits⌋
    else 0
  let priorityFeeLamports : ℤ :=
    match unitsConsumed with
    | none => 0
    | some u =>
      if u ≠ 0 ∧ microLamportsPerCU > 0 then
        ⌊((u : ℚ) * microLamportsPerCU) / 1000000⌋
      else 0
  let totalLamports : ℤ := baseFeeLamports + priorityFeeLamports
  { baseFeeLamports := baseFeeLamports,
    priorityFeeLamports := priorityFeeLamports,
    totalLamports := totalLamports,
    unitsConsumed := unitsConsumed,
    microLamportsPerCU := microLamportsPerCU }

/-! ## Spec-side definitions (for refinement-style claims) -/

/-- Spec's `clamp01`: clamp a rational into [0,1]. -/
def clamp01 (x : ℚ) : ℚ := max 0 (min 1 x)

/-! ## Helper lemmas -/

/-- A u64 read whose 8 bytes do not fit in the buffer fails. -/
lemma readU64LE_oob (data : List ℕ) (o : ℕ) (h : data.length < o + 8) :
    readU64LE data o = none := by
  unfold readU64LE getUint32LE
  have hc : ¬ (o + 4 + 4 ≤ data.length) := by omega
  rw [if_neg hc]
  split_ifs with h1 <;> simp

/-- `roundLamports` as a single conditional. -/
lemma roundLamports_eq_ite (v : ℚ) :
    roundLamports v = if v - ⌊v⌋ > 1/2 then ⌊v⌋ + 1 else ⌊v⌋ := rfl

/-- `roundLamports` of a non-negative value is non-negative. -/
lemma roundLamports_nonneg (v : ℚ) (h : 0 ≤ v) : 0 ≤ roundLamports v := by
  rw [roundLamports_eq_ite]
  have hf : 0 ≤ ⌊v⌋ := Int.floor_nonneg.mpr h
  split_ifs <;> omega

/-- Clamping an already-floored-at-zero value is the same as clamping the
raw value. -/
lemma clamp01_max_zero (y : ℚ) : max 0 (min 1 (max 0 y)) = clamp01 y := by
  unfold clamp01
  rcases le_total y 0 with h | h
  · rw [max_eq_left h, max_eq_left (le_trans (min_le_right _ _) h)]
    simp
  · rw [max_eq_right h]

end TradeTest

namespace TradeTest

/-! ## Claim theorems -/

/-- C2: the lamport-rounding function used by both price oracles maps every
non-negative input `v` to `⌊v⌋` when the fractional part is at most `1/2`,
and to `⌊v⌋ + 1` when it is strictly greater than `1/2`. -/
theorem roundLamports_half_up_strict (v : ℚ) (_h : 0 ≤ v) :
    (v - ⌊v⌋ ≤ 1/2 → roundLamports v = ⌊v⌋)
    ∧ (1/2 < v - ⌊v⌋ → roundLamports v = ⌊v⌋ + 1) := by
  rw [roundLamports_eq_ite]
  constructor <;> intro h1
  · rw [if_neg (by linarith)]
  · rw [if_pos h1]

/-- C2 witness: in particular `100.5` rounds to `100` and `100.500001`
rounds to `101`. -/
theorem roundLamports_half_up_strict_witness :
    (0 : ℚ) ≤ 201/2 ∧ roundLamports (201/2) = 100 ∧
      roundLamports (100500001/1000000) = 101 := by
  refine ⟨by norm_num, ?_, ?_⟩
  · have h := (roundLamports_half_up_strict (201/2) (by norm_num)).1
    rw [show ⌊(201/2 : ℚ)⌋ = 100 from by norm_num [Int.floor_eq_iff]] at h
    exact h (by norm_num)
  · have h := (roundLamports_half_up_strict (100500001/1000000) (by norm_num)).2
    rw [show ⌊(100500001/1000000 : ℚ)⌋ = 100 from by
      norm_num [Int.floor_eq_iff]] at h
    exact h (by norm_num)

/-- C4: for every byte sequence shorter than the protocol's fixed layout
(520 bytes for Heaven, 123 bytes for Boop), the account decoder returns a
decode failure (`none`), never partial or zero-filled field values. -/
theorem decode_too_short_fails :
    (∀ data : List ℕ, data.length < 520 → decodeHeavenReserve data = none)
    ∧ (∀ data : List ℕ, data.length < 123 → decodeBoopBondingCurve data = none) := by
  constructor
  · intro data h
    have h4 : readU64LE data (8 + 88 + 360 + 56) = none :=
      readU64LE_oob data _ (by omega)
    unfold decodeHeavenReserve
    cases h1 : readU64LE data (8 + 88 + 360 + 0) <;> simp [h1]
    cases h2 : readU64LE data (8 + 88 + 360 + 8) <;> simp [h2]
    cases h3 : readU64LE data (8 + 88 + 360 + 48) <;> simp [h3]
    simp [h4]
  · intro data h
    have h7 : getUint16LE data 121 = none := by
      unfold getUint16LE
      rw [if_neg (by omega)]
    unfold decodeBoopBondingCurve
    cases h1 : readU64LE data 72 <;> simp [h1]
    cases h2 : readU64LE data 80 <;> simp [h2]
    cases h3 : readU64LE data 88 <;> simp [h3]
    cases h4 : readU64LE data 104 <;> simp [h4]
    cases h5 : readU64LE data 112 <;> simp [h5]
    cases h6 : getUint8 data 120 <;> simp [h6]
    simp [h7]

/-- C4 witness: buffers one byte short of each layout fail to decode. -/
theorem decode_too_short_fails_witness :
    decodeHeavenReserve (List.replicate 519 0) = none
    ∧ decodeBoopBondingCurve (List.replicate 122 0) = none :=
  ⟨decode_too_short_fails.1 (List.replicate 519 0)
      (by rw [List.length_replicate]; omega),
   decode_too_short_fails.2 (List.replicate 122 0)
      (by rw [List.length_replicate]; omega)⟩

/-- C7: the Heaven price per token is
`tokenBReserve * 10^decimals / tokenAReserve` rounded round-half-up-strict
when `tokenAReserve > 0`, and `0` when `tokenAReserve = 0`. -/
theorem getHeavenPrice_lamports (r : HeavenReserve) (d : ℕ) :
    ((0 : ℚ) < r.tokenA →
      (getHeavenPrice r d).lamportsPerToken =
        roundLamports ((r.tokenB : ℚ) * 10 ^ d / r.tokenA))
    ∧ (r.tokenA = 0 → (getHeavenPrice r d).lamportsPerToken = 0) := by
  constructor <;> intro h
  · simp only [getHeavenPrice]
    rw [if_pos h]
  · simp only [getHeavenPrice, h]
    norm_num

/-- C7 witness: reserves `tokenA = 2`, `tokenB = 3`, `decimals = 0` give
price `roundLamports (3/2) = 1` (the exact-half tie rounds down). -/
theorem getHeavenPrice_lamports_witness :
    (0 : ℚ) < (HeavenReserve.mk 2 3 0 0).tokenA
    ∧ (getHeavenPrice (HeavenReserve.mk 2 3 0 0) 0).lamportsPerToken =
        roundLamports (((HeavenReserve.mk 2 3 0 0).tokenB : ℚ) * 10 ^ 0 /
          (HeavenReserve.mk 2 3 0 0).tokenA)
    ∧ roundLamports (((HeavenReserve.mk 2 3 0 0).tokenB : ℚ) * 10 ^ 0 /
        (HeavenReserve.mk 2 3 0 0).tokenA) = 1 := by
  refine ⟨by norm_num, (getHeavenPrice_lamports (HeavenReserve.mk 2 3 0 0) 0).1 (by norm_num), ?_⟩
  norm_num [roundLamports]

/-- C8: the Heaven bonding-curve percent equals
`clamp01((initialTokenAReserve - tokenAReserve) / initialTokenAReserve) * 100`
rounded to 2 decimal places when `initialTokenAReserve > 0`, and `0` when
`initialTokenAReserve = 0`. -/
theorem getHeavenPrice_bondingCurve (r : HeavenReserve) (d : ℕ) :
    ((0 : ℚ) < r.initialA →
      (getHeavenPrice r d).bondingCurvePercent =
        some (roundPercent
          (clamp01 (((r.initialA : ℚ) - r.tokenA) / r.initialA) * 100)))
    ∧ (r.initialA = 0 → (getHeavenPrice r d).bondingCurvePercent = some 0) := by
  constructor <;> intro h
  · simp only [getHeavenPrice]
    rw [if_pos h]
    rw [show max 0 ((r.initialA : ℚ) - r.tokenA) / r.initialA =
          max 0 (((r.initialA : ℚ) - r.tokenA) / r.initialA) from by
        rw [← max_div_div_right h.le, zero_div]]
    rw [clamp01_max_zero]
  · simp only [getHeavenPrice, h]
    norm_num

/-- C8 witness: `initialTokenAReserve = 1_000_000`, `tokenAReserve = 250_000`
yields exactly 75.00 percent. -/
theorem getHeavenPrice_bondingCurve_witness :
    (0 : ℚ) < (HeavenReserve.mk 250000 0 1000000 0).initialA
    ∧ (getHeavenPrice (HeavenReserve.mk 250000 0 1000000 0) 9).bondingCurvePercent =
        some (roundPercent
          (clamp01 ((((HeavenReserve.mk 250000 0 1000000 0).initialA : ℚ) -
            (HeavenReserve.mk 250000 0 1000000 0).tokenA) /
              (HeavenReserve.mk 250000 0 1000000 0).initialA) * 100))
    ∧ roundPercent
        (clamp01 ((((HeavenReserve.mk 250000 0 1000000 0).initialA : ℚ) -
          (HeavenReserve.mk 250000 0 1000000 0).tokenA) /
            (HeavenReserve.mk 250000 0 1000000 0).initialA) * 100) = 75 := by
  refine ⟨by norm_num,
    (getHeavenPrice_bondingCurve (HeavenReserve.mk 250000 0 1000000 0) 9).1 (by norm_num), ?_⟩
  norm_num [clamp01, roundPercent]

/-- C5: the Boop bonding-curve percent equals
`clamp01(solReserves / graduationTarget) * 100` rounded to 2 decimal places
when `graduationTarget > 0`, and is `none` (unknown, never the number zero)
when `graduationTarget = 0`. -/
theorem getBoopFunPrice_bondingCurve (p : BoopBondingCurve) (d : ℕ) :
    (0 < p.graduationTarget →
      (getBoopFunPrice p d).bondingCurvePercent =
        some (roundPercent
          (clamp01 ((p.solReserves : ℚ) / p.graduationTarget) * 100)))
    ∧ (p.graduationTarget = 0 →
        (getBoopFunPrice p d).bondingCurvePercent = none) := by
  constructor <;> intro h
  · simp only [getBoopFunPrice, clamp01]
    rw [if_pos h]
  · simp only [getBoopFunPrice, h]
    norm_num

/-- C5 witness: `graduationTarget = 80`, `solReserves = 20` yields 25.00
percent; `graduationTarget = 0` yields `none`. -/
theorem getBoopFunPrice_bondingCurve_witness :
    0 < (BoopBondingCurve.mk 0 0 0 20 1 0 80).graduationTarget
    ∧ (getBoopFunPrice (BoopBondingCurve.mk 0 0 0 20 1 0 80) 9).bondingCurvePercent =
        some (roundPercent
          (clamp01 (((BoopBondingCurve.mk 0 0 0 20 1 0 80).solReserves : ℚ) /
            (BoopBondingCurve.mk 0 0 0 20 1 0 80).graduationTarget) * 100))
    ∧ roundPercent
        (clamp01 (((BoopBondingCurve.mk 0 0 0 20 1 0 80).solReserves : ℚ) /
          (BoopBondingCurve.mk 0 0 0 20 1 0 80).graduationTarget) * 100) = 25
    ∧ (getBoopFunPrice (BoopBondingCurve.mk 0 0 0 20 1 0 0) 9).bondingCurvePercent = none := by
  refine ⟨by norm_num,
    (getBoopFunPrice_bondingCurve (BoopBondingCurve.mk 0 0 0 20 1 0 80) 9).1 (by norm_num),
    ?_,
    (getBoopFunPrice_bondingCurve (BoopBondingCurve.mk 0 0 0 20 1 0 0) 9).2 rfl⟩
  norm_num [clamp01, roundPercent]

/-- C9: the Boop price is
`roundLamports (max 0 ((((virtualSolReserves + solReserves) / 10^9) /
(tokenReserves / 10^d)) * 10^9))` when `tokenReserves > 0`, is `0` when
`tokenReserves = 0`, and is never negative. -/
theorem getBoopFunPrice_lamports (p : BoopBondingCurve) (d : ℕ) :
    (0 < p.tokenReserves →
      (getBoopFunPrice p d).lamportsPerToken =
        roundLamports (max 0 ((((p.virtualSolReserves : ℚ) + p.solReserves) / 10 ^ 9 /
          ((p.tokenReserves : ℚ) / 10 ^ d)) * 10 ^ 9)))
    ∧ (p.tokenReserves = 0 → (getBoopFunPrice p d).lamportsPerToken = 0)
    ∧ 0 ≤ (getBoopFunPrice p d).lamportsPerToken := by
  have hL : (LAMPORTS_PER_SOL : ℚ) = 10 ^ 9 := by norm_num [LAMPORTS_PER_SOL]
  refine ⟨?_, ?_, ?_⟩
  · intro h
    simp only [getBoopFunPrice, hL]
    rw [if_pos (by positivity)]
  · intro h
    simp only [getBoopFunPrice, h]
    norm_num [roundLamports]
  · exact roundLamports_nonneg _ (le_max_left _ _)

/-- C9 witness: `virtualSolReserves = 30_000_000_000`, `solReserves = 0`,
`tokenReserves = 1_000_000_000_000`, `decimals = 6` yields the deterministic
non-negative price 30000. -/
theorem getBoopFunPrice_lamports_witness :
    0 < (BoopBondingCurve.mk 0 0 30000000000 0 1000000000000 0 0).tokenReserves
    ∧ (getBoopFunPrice (BoopBondingCurve.mk 0 0 30000000000 0 1000000000000 0 0) 6).lamportsPerToken =
        roundLamports (max 0
          (((((BoopBondingCurve.mk 0 0 30000000000 0 1000000000000 0 0).virtualSolReserves : ℚ) +
            (BoopBondingCurve.mk 0 0 30000000000 0 1000000000000 0 0).solReserves) / 10 ^ 9 /
            (((BoopBondingCurve.mk 0 0 30000000000 0 1000000000000 0 0).tokenReserves : ℚ) / 10 ^ 6)) * 10 ^ 9))
    ∧ roundLamports (max 0
        (((((BoopBondingCurve.mk 0 0 30000000000 0 1000000000000 0 0).virtualSolReserves : ℚ) +
          (BoopBondingCurve.mk 0 0 30000000000 0 1000000000000 0 0).solReserves) / 10 ^ 9 /
          (((BoopBondingCurve.mk 0 0 30000000000 0 1000000000000 0 0).tokenReserves : ℚ) / 10 ^ 6)) * 10 ^ 9)) = 30000
    ∧ 0 ≤ (getBoopFunPrice (BoopBondingCurve.mk 0 0 30000000000 0 1000000000000 0 0) 6).lamportsPerToken := by
  refine ⟨by norm_num,
    (getBoopFunPrice_lamports (BoopBondingCurve.mk 0 0 30000000000 0 1000000000000 0 0) 6).1 (by norm_num),
    ?_,
    (getBoopFunPrice_lamports (BoopBondingCurve.mk 0 0 30000000000 0 1000000000000 0 0) 6).2.2⟩
  norm_num [roundLamports]

/-- C6: if `priorityFeeSol > 0` then
`microLamportsPerCU = max 1 ⌊priorityFeeSol * 10^9 / 300000⌋`, else `0`;
`priorityFeeLamports = ⌊unitsConsumed * microLamportsPerCU / 1000000⌋` only
when a simulated unit count and a non-zero rate are both available, and `0`
otherwise; `totalLamports = baseFeeLamports + priorityFeeLamports`; and
`priorityFeeSol = 0` always yields `priorityFeeLamports = 0` regardless of
the simulated unit count. -/
theorem estimateFees_spec (p : ℚ) (base : ℕ) (units : Option ℕ) :
    (0 < p → (estimateFees p base units).microLamportsPerCU =
        max 1 ⌊p * 10 ^ 9 / 300000⌋)
    ∧ (p ≤ 0 → (estimateFees p base units).microLamportsPerCU = 0)
    ∧ (∀ u, units = some u →
        0 < (estimateFees p base units).microLamportsPerCU →
        (estimateFees p base units).priorityFeeLamports =
          ⌊((u : ℚ) * (estimateFees p base units).microLamportsPerCU) / 1000000⌋)
    ∧ ((units = none ∨ (estimateFees p base units).microLamportsPerCU = 0) →
        (estimateFees p base units).priorityFeeLamports = 0)
    ∧ (estimateFees p base units).totalLamports =
        (base : ℤ) + (estimateFees p base units).priorityFeeLamports
    ∧ (p = 0 → (estimateFees p base units).priorityFeeLamports = 0) := by
  have hL : (LAMPORTS_PER_SOL : ℚ) = 10 ^ 9 := by norm_num [LAMPORTS_PER_SOL]
  refine ⟨?_, ?_, ?_, ?_, ?_, ?_⟩
  · intro h
    simp only [estimateFees, hL]
    rw [if_pos h]
    norm_num
  · intro h
    simp only [estimateFees]
    rw [if_neg (by linarith)]
  · intro u hu hm
    subst hu
    by_cases h0 : u = 0
    · subst h0
      simp only [estimateFees] at hm ⊢
      norm_num
    · simp only [estimateFees] at hm ⊢
      rw [if_pos ⟨h0, hm⟩]
  · intro h
    rcases h with h | h
    · subst h
      simp only [estimateFees]
    · cases units with
      | none => simp only [estimateFees]
      | some u =>
        simp only [estimateFees] at h ⊢
        simp only [h]
        simp
  · simp only [estimateFees]
  · intro h
    subst h
    cases units with
    | none => simp only [estimateFees]
    | some u =>
      simp only [estimateFees]
      norm_num

/-- C6 witness: `priorityFeeSol = 1`, `baseFee = 5000`,
`unitsConsumed = 250000` gives rate `3333` and priority fee `833`
(`⌊250000 * 3333 / 1000000⌋`); `priorityFeeSol = 0` gives priority fee `0`
despite the simulated unit count. -/
theorem estimateFees_spec_witness :
    ((0:ℚ) < 1 ∧ (estimateFees 1 5000 (some 250000)).microLamportsPerCU = max 1 ⌊(1:ℚ) * 10 ^ 9 / 300000⌋)
    ∧ (estimateFees 1 5000 (some 250000)).priorityFeeLamports = 833
    ∧ (estimateFees 0 5000 (some 250000)).priorityFeeLamports = 0 := by
  refine ⟨⟨by norm_num, (estimateFees_spec 1 5000 (some 250000)).1 (by norm_num)⟩, ?_, ?_⟩
  · have h := (estimateFees_spec 1 5000 (some 250000)).2.2.1 250000 rfl
    norm_num [estimateFees, LAMPORTS_PER_SOL] at h ⊢
  · exact (estimateFees_spec 0 5000 (some 250000)).2.2.2.2.2 rfl

/-- C3: whenever `buildTransaction` succeeds, with `priorityFeeSol > 0` the
instruction list is the compute-unit-limit instruction, then the
compute-unit-price instruction, then the market instructions in the market
client's order, then the caller's additional instructions in their given
order; with `priorityFeeSol = 0` no compute-budget instructions are
included; and the fee payer is the wallet's public key. -/
theorem buildTransaction_ordering (market direction : String) (wallet : ℕ)
    (slippage priorityFeeSol : ℚ) (mi ai : List Instruction) (tx : Transaction)
    (hok : buildTransaction market direction wallet slippage priorityFeeSol mi ai =
      Except.ok tx) :
    (0 < priorityFeeSol →
      tx.instructions =
        Instruction.computeUnitLimit 300000 ::
          Instruction.computeUnitPrice
            (max 1 ⌊priorityFeeSol * (LAMPORTS_PER_SOL : ℚ) / 300000⌋) ::
            (mi ++ ai))
    ∧ (priorityFeeSol = 0 → tx.instructions = mi ++ ai)
    ∧ tx.feePayer = some wallet := by
  simp only [buildTransaction] at hok
  by_cases hs : slippage < 0 ∨ slippage > 1
  · rw [if_pos hs] at hok
    exact absurd hok (by simp)
  · rw [if_neg hs] at hok
    cases hm : createMarketClient market with
    | none => rw [hm] at hok; simp at hok
    | some c =>
      rw [hm] at hok
      cases hd : createDirectionInvoker direction with
      | none => rw [hd] at hok; simp at hok
      | some dir =>
        rw [hd] at hok
        simp only [Except.ok.injEq] at hok
        subst hok
        refine ⟨?_, ?_, rfl⟩
        · intro hp
          show (if priorityFeeSol > 0 then _ else []) ++ mi ++ ai = _
          rw [if_pos hp]
          simp
        · intro hp
          subst hp
          show (if (0:ℚ) > 0 then _ else []) ++ mi ++ ai = mi ++ ai
          rw [if_neg (lt_irrefl 0)]
          simp

/-- C3 witness: a concrete successful build with `priorityFeeSol = 1/1000`
SOL (rate `⌊10/3⌋ = 3` micro-lamports per CU). -/
theorem buildTransaction_ordering_witness :
    ((0:ℚ) < 1/1000 →
      (Transaction.mk [Instruction.computeUnitLimit 300000, Instruction.computeUnitPrice 3,
          Instruction.other 1, Instruction.other 2] (some 1)).instructions =
        Instruction.computeUnitLimit 300000 ::
          Instruction.computeUnitPrice
            (max 1 ⌊(1/1000 : ℚ) * (LAMPORTS_PER_SOL : ℚ) / 300000⌋) ::
            ([Instruction.other 1] ++ [Instruction.other 2]))
    ∧ ((1/1000 : ℚ) = 0 →
      (Transaction.mk [Instruction.computeUnitLimit 300000, Instruction.computeUnitPrice 3,
          Instruction.other 1, Instruction.other 2] (some 1)).instructions =
        [Instruction.other 1] ++ [Instruction.other 2])
    ∧ (Transaction.mk [Instruction.computeUnitLimit 300000, Instruction.computeUnitPrice 3,
        Instruction.other 1, Instruction.other 2] (some 1)).feePayer = some 1 :=
  buildTransaction_ordering "BOOP_FUN" "buy" 1 (1/20) (1/1000)
    [Instruction.other 1] [Instruction.other 2]
    (Transaction.mk [Instruction.computeUnitLimit 300000, Instruction.computeUnitPrice 3,
      Instruction.other 1, Instruction.other 2] (some 1))
    (by simp [buildTransaction, createMarketClient, createDirectionInvoker,
          markets.BOOP_FUN, markets.HEAVEN, swapDirection.BUY, LAMPORTS_PER_SOL]
        norm_num)

/-- C1 counterexample: the finite slippage percentage `150` lies outside
`[0,100]` yet is not rejected — `normalizeSlippage` clamps it to `100` and
hands the fraction `1` to the transaction builder, which returns a built
transaction rather than an error. -/
theorem normalizeSlippage_not_rejected :
    normalizeSlippage 150 = 1
    ∧ buildTransaction "BOOP_FUN" "buy" 7 (normalizeSlippage 150) 0
        [Instruction.other 0] [] =
      Except.ok (Transaction.mk [Instruction.other 0] (some 7)) := by
  have h : normalizeSlippage 150 = 1 := by norm_num [normalizeSlippage]
  refine ⟨h, ?_⟩
  rw [h]
  simp [buildTransaction, createMarketClient, createDirectionInvoker,
    markets.BOOP_FUN, markets.HEAVEN, swapDirection.BUY]

/-- C1 (amended): for every finite slippage percentage `p` in `[0,100]` the
fraction handed to the transaction builder equals `p / 100`; a finite `p`
outside `[0,100]` is not rejected but clamped to the nearest bound first, so
the fraction is `max 0 (min 100 p) / 100`, which always lies in `[0,1]` and
therefore always passes the builder's range check. -/
theorem normalizeSlippage_spec (p : ℚ) :
    (0 ≤ p → p ≤ 100 → normalizeSlippage p = p / 100)
    ∧ normalizeSlippage p = max 0 (min 100 p) / 100
    ∧ 0 ≤ normalizeSlippage p ∧ normalizeSlippage p ≤ 1 := by
  refine ⟨?_, rfl, ?_, ?_⟩
  · intro h0 h1
    unfold normalizeSlippage
    rw [min_eq_right h1, max_eq_right h0]
  · unfold normalizeSlippage
    positivity
  · unfold normalizeSlippage
    rw [div_le_one (by norm_num)]
    exact max_le (by norm_num) (min_le_left _ _)

/-- C1 witness: slippage percentage `5` yields fraction `5/100`. -/
theorem normalizeSlippage_spec_witness :
    (0:ℚ) ≤ 5 ∧ (5:ℚ) ≤ 100 ∧ normalizeSlippage 5 = 5 / 100 :=
  ⟨by norm_num, by norm_num, (normalizeSlippage_spec 5).1 (by norm_num) (by norm_num)⟩

/-- C10: market-name matching is asymmetric between the two entry points:
the price path uppercases the market string before dispatch, so any casing
whose uppercasing is a supported name (e.g. "boop_fun") is accepted by
`getPriceForMarket`, while the transaction-building path compares the
string case-sensitively, so the same lowercase name makes
`buildTransaction` fail with an unsupported-market error. -/
theorem market_case_asymmetry :
    (∀ s : String, toUpperCase s = markets.BOOP_FUN →
        getPriceForMarket s = some MarketChoice.boopFun)
    ∧ getPriceForMarket "boop_fun" = some MarketChoice.boopFun
    ∧ createMarketClient "boop_fun" = none
    ∧ (∀ (direction : String) (wallet : ℕ) (priorityFeeSol : ℚ)
        (mi ai : List Instruction),
        buildTransaction "boop_fun" direction wallet (1/2) priorityFeeSol mi ai =
          Except.error ("Unsupported market: " ++ "boop_fun")) := by
  refine ⟨?_, by rfl, by rfl, ?_⟩
  · intro s h
    simp only [getPriceForMarket]
    rw [h, if_pos rfl]
  · intro direction wallet pf mi ai
    simp only [buildTransaction]
    rw [if_neg (by norm_num)]
    rw [show createMarketClient "boop_fun" = none from rfl]

/-- C10 witness: "boop_fun" is accepted by the price dispatch and rejected
by the transaction builder. -/
theorem market_case_asymmetry_witness :
    toUpperCase "boop_fun" = markets.BOOP_FUN
    ∧ getPriceForMarket "boop_fun" = some MarketChoice.boopFun
    ∧ buildTransaction "boop_fun" "buy" 7 (1/2) 0 [] [] =
        Except.error ("Unsupported market: " ++ "boop_fun") :=
  ⟨rfl, market_case_asymmetry.1 "boop_fun" rfl,
    market_case_asymmetry.2.2.2 "buy" 7 0 [] []⟩

end TradeTest
